import Mathlib

/-!
Verification of the JobAutoFlow match-scoring and auto-apply subsystem.

The definitions below are a shallow embedding of the TypeScript sources:
* `backend/src/services/matching.service.ts` — `calculateMatchScore` (AI
  strategy with deterministic fallback) and `calculateBasicMatchScore`;
* the application controller — `autoApply`;
* the jobs controller — `toggleFavorite` and `hideJob`.

JavaScript numbers are modelled as exact rationals (ℚ) or integers (ℤ);
float round-off is not modelled.  `Math.round` is round-half-up, written as
an exact operation on a fraction.  Nullable database columns are `Option`,
JavaScript truthiness is spelled out at each use site (`null`, `0` and the
empty string are falsy).  Strings are ASCII-lowercased, matching the
behaviour of `toLowerCase` on the ASCII payloads that occur here.
-/

/-- JS `s.toLowerCase()` (ASCII case folding). -/
def jlower (s : String) : String := ⟨s.data.map Char.toLower⟩

/-- Auxiliary for `jsIncludes`: does `needle` occur as a contiguous run
inside `hay`? -/
def charsIncl (needle : List Char) : List Char → Bool
  | [] => needle.isEmpty
  | c :: rest => needle.isPrefixOf (c :: rest) || charsIncl needle rest

/-- JS `s.includes(t)`: `t` occurs as a substring of `s`. -/
def jsIncludes (s t : String) : Bool := charsIncl t.data s.data

/-- JS `Math.round (n / d)` as an exact operation on the fraction `n / d`
(round half toward positive infinity).  For `d = 0` JS produces `±Infinity`
(or `NaN`); that corner is represented by `0` here and is never evaluated by
the theorems below. -/
def roundDiv (n d : ℤ) : ℤ :=
  if 0 < d then (2 * n + d) / (2 * d)
  else if d < 0 then (2 * (-n) + (-d)) / (2 * (-d))
  else 0

/-- JS `Math.round` on an exact rational (round half toward positive
infinity): `⌊q + 1/2⌋` computed on the numerator and denominator. -/
def jroundQ (q : ℚ) : ℤ := (2 * q.num + (q.den : ℤ)) / (2 * (q.den : ℤ))

/-- The Prisma `ExperienceLevel` enum. -/
inductive ExperienceLevel
  | ENTRY | MID | SENIOR | EXECUTIVE
deriving DecidableEq

/-- The Prisma `LocationType` enum. -/
inductive LocationType
  | ONSITE | REMOTE | HYBRID
deriving DecidableEq

/-- The fields of the Prisma `UserProfile` row read by the match scorer
(`headline`, `summary`, `salaryMax`, `industries`, … are only interpolated
into the AI prompt and are omitted).  `experienceYears`, `salaryMin` and
`location` are nullable columns. -/
structure UserProfile where
  skills : List String
  experienceYears : Option ℤ
  salaryMin : Option ℤ
  location : Option String
  preferredRoles : List String
deriving DecidableEq

/-- The fields of the Prisma `Job` row read by the match scorer. -/
structure Job where
  title : String
  skillsRequired : List String
  experienceLevel : Option ExperienceLevel
  salaryMax : Option ℤ
  location : Option String
  locationType : Option LocationType
deriving DecidableEq

/-- The `details` sub-record of a fallback `MatchResult`: in
`calculateBasicMatchScore` every field is an integer. -/
structure MatchDetails where
  skillsMatch : ℤ
  experienceMatch : ℤ
  salaryMatch : ℤ
  locationMatch : ℤ
  overallFit : ℤ
deriving DecidableEq

/-- The result of `calculateBasicMatchScore`. -/
structure BasicMatchResult where
  score : ℤ
  reasons : List String
  details : MatchDetails
deriving DecidableEq

/-- `matchingSkills` from the skills block of `calculateBasicMatchScore`:
profile skills that match some required skill by case-insensitive
containment in either direction. -/
def matchingSkills (profile : UserProfile) (job : Job) : List String :=
  profile.skills.filter fun skill =>
    job.skillsRequired.any fun req =>
      jsIncludes (jlower req) (jlower skill) || jsIncludes (jlower skill) (jlower req)

/-- Skills block (40% weight): detail value and pushed reason.  The guard
`profile.skills?.length && job.skillsRequired?.length` is truthy exactly
when both lists are non-empty. -/
def skillsBlock (profile : UserProfile) (job : Job) : ℤ × List String :=
  if profile.skills.isEmpty || job.skillsRequired.isEmpty then (0, [])
  else
    let m := (matchingSkills profile job).length
    ( roundDiv (100 * m) job.skillsRequired.length,
      if 0 < m then ["Matches " ++ toString m ++ " required skills"] else [] )

/-- The `expMap` record literal, with the code's `expMap[...] || 0` default
already absorbed by totality of the enum. -/
def expMap : ExperienceLevel → ℤ
  | .ENTRY => 0
  | .MID => 3
  | .SENIOR => 5
  | .EXECUTIVE => 8

/-- Experience block (20% weight).  The guard
`profile.experienceYears && job.experienceLevel` is falsy when the years
column is NULL **or zero**, so the block is skipped in those cases. -/
def experienceBlock (profile : UserProfile) (job : Job) : ℤ × List String :=
  match profile.experienceYears, job.experienceLevel with
  | some years, some lvl =>
    if years = 0 then (0, [])
    else
      let requiredExp := expMap lvl
      if requiredExp ≤ years then (100, ["Experience level matches requirements"])
      else (roundDiv (100 * years) requiredExp, [])
  | _, _ => (0, [])

/-- Salary block (20% weight).  The guard
`profile.salaryMin && job.salaryMax` is falsy when either column is NULL or
zero. -/
def salaryBlock (profile : UserProfile) (job : Job) : ℤ × List String :=
  match profile.salaryMin, job.salaryMax with
  | some salaryMin, some salaryMax =>
    if salaryMin = 0 ∨ salaryMax = 0 then (0, [])
    else if salaryMin ≤ salaryMax then (100, ["Salary expectations align"])
    else (roundDiv (100 * salaryMax) salaryMin, [])
  | _, _ => (0, [])

/-- Location block (10% weight).  The guard
`profile.location && job.location` is falsy when either column is NULL or
the empty string. -/
def locationBlock (profile : UserProfile) (job : Job) : ℤ × List String :=
  match profile.location, job.location with
  | some pl, some jl =>
    if pl = "" ∨ jl = "" then (0, [])
    else
      let profileLoc := jlower pl
      let jobLoc := jlower jl
      if profileLoc == jobLoc || jsIncludes jobLoc profileLoc || jsIncludes profileLoc jobLoc then
        (100, ["Location matches preference"])
      else if job.locationType == some .REMOTE then (80, ["Remote position available"])
      else (0, [])
  | _, _ => (0, [])

/-- Role/title block (10% weight, stored in the `overallFit` detail). -/
def roleBlock (profile : UserProfile) (job : Job) : ℤ × List String :=
  if profile.preferredRoles.isEmpty then (0, [])
  else if profile.preferredRoles.any (fun role => jsIncludes (jlower job.title) (jlower role)) then
    (100, ["Job title matches preferred roles"])
  else (0, [])

/-- Projection of the skills block used by the range theorems. -/
def skillsMatchScore (profile : UserProfile) (job : Job) : ℤ := (skillsBlock profile job).1

/-- Projection of the experience block used by the range theorems. -/
def experienceMatchScore (profile : UserProfile) (job : Job) : ℤ :=
  (experienceBlock profile job).1

/-- Projection of the salary block used by the range theorems. -/
def salaryMatchScore (profile : UserProfile) (job : Job) : ℤ := (salaryBlock profile job).1

/-- Projection of the location block used by the range theorems. -/
def locationMatchScore (profile : UserProfile) (job : Job) : ℤ := (locationBlock profile job).1

/-- Projection of the role/title block used by the range theorems. -/
def overallFitScore (profile : UserProfile) (job : Job) : ℤ := (roleBlock profile job).1

/-- `calculateBasicMatchScore`: the deterministic fallback.  Each skipped
block leaves its detail at `0` and contributes `0` to the accumulator, so
the accumulator always equals the weighted sum
`0.4·skills + 0.2·experience + 0.2·salary + 0.1·location + 0.1·overallFit`,
an exact fraction with denominator 10. -/
def calculateBasicMatchScore (profile : UserProfile) (job : Job) : BasicMatchResult :=
  let skills := skillsBlock profile job
  let experience := experienceBlock profile job
  let salary := salaryBlock profile job
  let location := locationBlock profile job
  let role := roleBlock profile job
  let reasons := skills.2 ++ experience.2 ++ salary.2 ++ location.2 ++ role.2
  { score := roundDiv (4 * skills.1 + 2 * experience.1 + 2 * salary.1 + location.1 + role.1) 10
    reasons := if reasons.isEmpty then ["General profile match"] else reasons
    details :=
      { skillsMatch := skills.1
        experienceMatch := experience.1
        salaryMatch := salary.1
        locationMatch := location.1
        overallFit := role.1 } }

example : roundDiv (100 * 1) 2 = 50 := by decide
example : jlower "Remote" = "remote" := by decide
example : jsIncludes "frontend engineer" "frontend engineer" = true := by decide
example :
    calculateBasicMatchScore
      ⟨["JavaScript", "React"], some 4, some 80000, some "Remote", ["Frontend Engineer"]⟩
      ⟨"Frontend Engineer", ["React", "TypeScript"], some .MID, some 90000,
        some "New York", some .REMOTE⟩ =
    ⟨78,
      ["Matches 1 required skills", "Experience level matches requirements",
        "Salary expectations align", "Remote position available",
        "Job title matches preferred roles"],
      ⟨50, 100, 100, 80, 100⟩⟩ := by decide

/-- JSON values as produced by `JSON.parse` (`undefined` cannot occur in a
parse result; duplicate object keys are not modelled — `JSON.parse` keeps
the last one, and no payload below uses them). -/
inductive JValue
  | jnull
  | jbool (b : Bool)
  | jnum (q : ℚ)
  | jstr (s : String)
  | jarr (elems : List JValue)
  | jobj (fields : List (String × JValue))

/-- A JS number: finite (exact rational), `NaN`, or `±Infinity`. -/
inductive JNum
  | nan
  | inf
  | ninf
  | fin (q : ℚ)
deriving DecidableEq

/-- JS truthiness of a JSON value (`null`, `false`, `0` and `""` are falsy;
arrays and objects are always truthy). -/
def jsTruthy : JValue → Bool
  | .jnull => false
  | .jbool b => b
  | .jnum q => decide (q ≠ 0)
  | .jstr s => decide (s ≠ "")
  | .jarr _ => true
  | .jobj _ => true

/-- Digits-to-number accumulator for `strToNum`. -/
def digitsToNat (cs : List Char) : ℕ :=
  cs.foldl (fun n c => 10 * n + (c.toNat - 48)) 0

/-- Decimal part of JS `ToNumber` on a trimmed unsigned string: digits, an
optional decimal point and fraction digits.  Exponent, hexadecimal, octal
and binary literal forms are not modelled (no payload below uses them);
they fall through to `none` (= `NaN`). -/
def parseDecimalQ (cs : List Char) : Option ℚ :=
  let intPart := cs.takeWhile (·.isDigit)
  let rest := cs.dropWhile (·.isDigit)
  match rest with
  | [] => if intPart.isEmpty then none else some (digitsToNat intPart)
  | '.' :: frac =>
    if frac.all (·.isDigit) && !(intPart.isEmpty && frac.isEmpty) then
      some ((digitsToNat intPart : ℚ) + (digitsToNat frac : ℚ) / ((10 : ℚ) ^ frac.length))
    else none
  | _ => none

/-- JS `ToNumber` on a string: trim whitespace, empty means `0`,
`±Infinity`, otherwise an optionally signed decimal literal, else `NaN`. -/
def strToNum (s : String) : JNum :=
  let t := ((s.data.dropWhile Char.isWhitespace).reverse.dropWhile Char.isWhitespace).reverse
  match t with
  | [] => .fin 0
  | c :: rest =>
    let (neg, body) : Bool × List Char :=
      if c = '-' then (true, rest) else if c = '+' then (false, rest) else (false, c :: rest)
    if body = "Infinity".data then (if neg then .ninf else .inf)
    else
      match parseDecimalQ body with
      | some q => .fin (if neg then -q else q)
      | none => .nan

/-- JS `ToNumber` on a JSON value.  Arrays coerce through their string
form: `[]` is `0`, a one-element array coerces like its element (except
booleans and objects, whose string forms are not numeric), longer arrays
contain a comma and are `NaN`; plain objects are `NaN`. -/
def toNumber : JValue → JNum
  | .jnull => .fin 0
  | .jbool b => .fin (if b then 1 else 0)
  | .jnum q => .fin q
  | .jstr s => strToNum s
  | .jarr [] => .fin 0
  | .jarr [v] =>
    match v with
    | .jbool _ => .nan
    | .jobj _ => .nan
    | w => toNumber w
  | .jarr (_ :: _ :: _) => .nan
  | .jobj _ => .nan

/-- JS `Math.round` on a JS number (`NaN` and `±Infinity` are fixed). -/
def mathRound : JNum → JNum
  | .fin q => .fin (jroundQ q)
  | n => n

/-- Result of a JS property access: a `TypeError`, `undefined`, or a
value. -/
inductive JsGet
  | thrown
  | undefined
  | val (v : JValue)

/-- JS `v[key]` on a parse result: throws on `null`, looks up object
fields, and is `undefined` on every other JSON value. -/
def jsGetField (v : JValue) (key : String) : JsGet :=
  match v with
  | .jnull => .thrown
  | .jobj fields =>
    match fields.lookup key with
    | some w => .val w
    | none => .undefined
  | _ => .undefined

/-- JS optional chaining `g?.[key]`: `undefined` and `null` short-circuit
to `undefined`; other non-objects give `undefined`. -/
def jsOptChain (g : JsGet) (key : String) : JsGet :=
  match g with
  | .thrown => .thrown
  | .undefined => .undefined
  | .val v =>
    match v with
    | .jnull => .undefined
    | .jobj fields =>
      match fields.lookup key with
      | some w => .val w
      | none => .undefined
    | _ => .undefined

/-- JS `g || dflt`: keep the accessed value when truthy, else the
default (`undefined` is falsy). -/
def jsOrDefault (g : JsGet) (dflt : JValue) : JValue :=
  match g with
  | .val v => if jsTruthy v then v else dflt
  | _ => dflt

/-- JS `Math.round(g)` on a property access: `Math.round(undefined)` is
`NaN`. -/
def roundGet (g : JsGet) : JNum :=
  match g with
  | .val v => mathRound (toNumber v)
  | _ => .nan

/-- The `details` sub-record of `MatchResult` as built by
`calculateMatchScore`: each field is `parsed.details?.x || 0`, so it can be
any truthy JSON value (the TypeScript type says `number`, but the runtime
does not check). -/
structure JsMatchDetails where
  skillsMatch : JValue
  experienceMatch : JValue
  salaryMatch : JValue
  locationMatch : JValue
  overallFit : JValue

/-- The `MatchResult` interface as observed at runtime: the score is a JS
number (possibly `NaN`), `reasons` is `parsed.reasons || []`. -/
structure MatchResult where
  score : JNum
  reasons : JValue
  details : JsMatchDetails

/-- Injection of a fallback result into the runtime `MatchResult` shape
(in JS both branches produce the same record type; the fallback's numbers
are genuine finite numbers and its reasons a string array). -/
def toMatchResult (b : BasicMatchResult) : MatchResult where
  score := .fin (b.score : ℚ)
  reasons := .jarr (b.reasons.map .jstr)
  details :=
    { skillsMatch := .jnum (b.details.skillsMatch : ℚ)
      experienceMatch := .jnum (b.details.experienceMatch : ℚ)
      salaryMatch := .jnum (b.details.salaryMatch : ℚ)
      locationMatch := .jnum (b.details.locationMatch : ℚ)
      overallFit := .jnum (b.details.overallFit : ℚ) }

/-- Outcome of the external AI call and response handling, at the branch
points of the `try` block of `calculateMatchScore`:
* `callError` — `openai.chat.completions.create` threw;
* `emptyContent` — `response.choices[0]?.message?.content` was falsy, so
  the code threw `'No response from OpenAI'`;
* `jsonError` — `JSON.parse(content)` threw;
* `parsedValue v` — `JSON.parse` succeeded with the JSON value `v`. -/
inductive AIOutcome
  | callError
  | emptyContent
  | jsonError
  | parsedValue (v : JValue)

/-- The `try` block of `calculateMatchScore` after the parse: building the
returned record evaluates `Math.round(parsed.score)` first, which throws a
`TypeError` when `parsed` is `null`; otherwise every access yields a value
or `undefined` and the record is built with the `||` defaults. -/
def aiTryBlock (outcome : AIOutcome) : Except Unit MatchResult :=
  match outcome with
  | .callError => .error ()
  | .emptyContent => .error ()
  | .jsonError => .error ()
  | .parsedValue parsed =>
    match jsGetField parsed "score" with
    | .thrown => .error ()
    | scoreGet =>
      let detailsGet := jsGetField parsed "details"
      .ok
        { score := roundGet scoreGet
          reasons := jsOrDefault (jsGetField parsed "reasons") (.jarr [])
          details :=
            { skillsMatch := jsOrDefault (jsOptChain detailsGet "skillsMatch") (.jnum 0)
              experienceMatch := jsOrDefault (jsOptChain detailsGet "experienceMatch") (.jnum 0)
              salaryMatch := jsOrDefault (jsOptChain detailsGet "salaryMatch") (.jnum 0)
              locationMatch := jsOrDefault (jsOptChain detailsGet "locationMatch") (.jnum 0)
              overallFit := jsOrDefault (jsOptChain detailsGet "overallFit") (.jnum 0) } }

/-- `calculateMatchScore`: the AI strategy inside a `try`, with an
unconditional `catch` that logs and returns
`calculateBasicMatchScore(profile, job)`. -/
def calculateMatchScore (outcome : AIOutcome) (profile : UserProfile) (job : Job) :
    MatchResult :=
  match aiTryBlock outcome with
  | .ok r => r
  | .error _ => toMatchResult (calculateBasicMatchScore profile job)

/-- A row of the `jobs` table, restricted to the columns the controllers
below read or write. -/
structure JobRow where
  id : ℤ
  title : String
  company : String
  applicationCount : ℤ
deriving DecidableEq

/-- A row of the `job_match_cache` table for the authenticated user:
key `jobId` (the `(userId, jobId)` pair restricted to one user),
`matchScore DECIMAL NOT NULL`, `matchDetails JSONB` (nullable), and the two
user flags (schema default `FALSE`). -/
structure CacheEntry where
  jobId : ℤ
  matchScore : ℚ
  matchDetails : Option JValue
  isFavorite : Bool
  isHidden : Bool

/-- The Prisma `ApplicationStatus` enum. -/
inductive AppStatus
  | PENDING | APPLIED | VIEWED | SHORTLISTED | INTERVIEW | OFFER | REJECTED | WITHDRAWN
deriving DecidableEq

/-- A row of the `applications` table for the authenticated user
(columns used by `autoApply`; timestamps are integers). -/
structure Application where
  jobId : ℤ
  status : AppStatus
  matchScore : Option ℚ
  matchReasons : List String
  isAutoApplied : Bool
  createdAt : ℤ
deriving DecidableEq

/-- The `user_preferences` columns read by `autoApply`. -/
structure UserPreferences where
  autoApplyEnabled : Bool
  autoApplyThreshold : ℚ
  autoApplyMaxPerDay : ℤ
deriving DecidableEq

/-- Database state visible to the authenticated user: their preferences
row (if any), the jobs table, their match-cache rows and their
applications.  New rows are appended at the end of a table. -/
structure UserState where
  preferences : Option UserPreferences
  jobs : List JobRow
  cache : List CacheEntry
  applications : List Application

/-- The `ApiError` codes thrown by the modelled controller actions
(`AUTO_APPLY_DISABLED` 400, `RATE_LIMIT` 429, `NOT_FOUND` 404). -/
inductive ApiError
  | autoApplyDisabled
  | rateLimit
  | notFound
deriving DecidableEq

/-- JS `Object.keys`: field names of an object, index strings of an array
or a string, nothing on numbers and booleans (`null` would throw, but every
call site guards with a truthiness test). -/
def objectKeys : JValue → List String
  | .jobj fields => fields.map (·.1)
  | .jarr xs => (List.range xs.length).map toString
  | .jstr s => (List.range s.length).map toString
  | _ => []

/-- `match.matchDetails ? Object.keys(match.matchDetails as object) : []`. -/
def detailKeys (matchDetails : Option JValue) : List String :=
  match matchDetails with
  | some v => if jsTruthy v then objectKeys v else []
  | none => []

/-- The daily auto-applied count: `prisma.application.count` over the
user's applications with `isAutoApplied: true` and
`createdAt: { gte: today }`, where `todayStart` is today's midnight. -/
def dailyAutoApplyCount (db : UserState) (todayStart : ℤ) : ℕ :=
  (db.applications.filter fun a => a.isAutoApplied && todayStart ≤ a.createdAt).length

/-- Ordering used by `orderBy: { matchScore: 'desc' }`. -/
def byScoreDesc (a b : CacheEntry) : Prop := b.matchScore ≤ a.matchScore

instance : DecidableRel byScoreDesc :=
  fun a b => inferInstanceAs (Decidable (b.matchScore ≤ a.matchScore))

instance : IsTotal CacheEntry byScoreDesc := ⟨fun a b => le_total b.matchScore a.matchScore⟩

instance : IsTrans CacheEntry byScoreDesc := ⟨fun _ _ _ h1 h2 => le_trans h2 h1⟩

/-- The `jobMatchCache.findMany` query of `autoApply`: rows of this user
with `matchScore ≥ autoApplyThreshold` and `isHidden: false`, ordered by
`matchScore` descending, limited to `autoApplyMaxPerDay - dailyCount`
rows.  Ties are ordered stably here; the database's tie order is
unspecified, and no property below depends on it. -/
def autoApplyCandidates (db : UserState) (preferences : UserPreferences)
    (todayStart : ℤ) : List CacheEntry :=
  (List.insertionSort byScoreDesc
      (db.cache.filter fun m =>
        decide (preferences.autoApplyThreshold ≤ m.matchScore) && !m.isHidden)).take
    (preferences.autoApplyMaxPerDay - (dailyAutoApplyCount db todayStart : ℤ)).toNat

/-- The exclusion step of `autoApply`: query the jobIds of this user's
existing applications among the candidates' jobIds, and drop every
candidate whose jobId is in that set. -/
def autoApplyJobsToApply (db : UserState) (preferences : UserPreferences)
    (todayStart : ℤ) : List CacheEntry :=
  let matchedJobs := autoApplyCandidates db preferences todayStart
  let jobIds := matchedJobs.map (·.jobId)
  let existingApplications := db.applications.filter fun a => jobIds.contains a.jobId
  let appliedJobIds := existingApplications.map (·.jobId)
  matchedJobs.filter fun m => !appliedJobIds.contains m.jobId

/-- The `application.create` data of the auto-apply loop: status
`PENDING`, score copied from the cache entry, reasons re-derived from the
detail keys, `isAutoApplied: true`. -/
def autoApplyApplication (now : ℤ) (m : CacheEntry) : Application where
  jobId := m.jobId
  status := .PENDING
  matchScore := some m.matchScore
  matchReasons := detailKeys m.matchDetails
  isAutoApplied := true
  createdAt := now

/-- One line of the response's `jobs` summary (`m.job` is the row joined
by `include: { job: true }`; the foreign key makes it present in any
well-formed state). -/
structure AutoApplySummary where
  jobId : ℤ
  job : Option JobRow
  matchScore : ℚ
deriving DecidableEq

/-- The `data` payload returned by `autoApply`. -/
structure AutoApplyResponse where
  applicationsCreated : ℕ
  jobs : List AutoApplySummary
deriving DecidableEq

/-- `autoApply` (`POST /api/v1/applications/auto-apply`): preconditions,
bounded candidate query, exclusion of already-applied jobs, creation loop
(which also increments each applied job's `applicationCount`), and response.
`todayStart` is today's midnight and `now` the creation timestamp. -/
def autoApply (db : UserState) (todayStart now : ℤ) :
    Except ApiError (UserState × AutoApplyResponse) :=
  match db.preferences with
  | none => .error .autoApplyDisabled
  | some preferences =>
    if preferences.autoApplyEnabled = false then .error .autoApplyDisabled
    else if preferences.autoApplyMaxPerDay ≤ (dailyAutoApplyCount db todayStart : ℤ) then
      .error .rateLimit
    else
      let jobsToApply := autoApplyJobsToApply db preferences todayStart
      let applications := jobsToApply.map (autoApplyApplication now)
      .ok
        ( { db with
            applications := db.applications ++ applications
            jobs := db.jobs.map fun jr =>
              { jr with
                applicationCount :=
                  jr.applicationCount + (jobsToApply.countP fun m => m.jobId == jr.id) } },
          { applicationsCreated := applications.length
            jobs := jobsToApply.map fun m =>
              { jobId := m.jobId
                job := db.jobs.find? fun jr => jr.id == m.jobId
                matchScore := m.matchScore } } )

/-- `toggleFavorite` (`POST /api/v1/jobs/:id/favorite`), for the
authenticated user: 404 when the job does not exist; otherwise toggle the
existing cache row's `isFavorite`, or create a placeholder row with
`matchScore: 0` and `isFavorite: true`.  Returns the new flag. -/
def toggleFavorite (db : UserState) (id : ℤ) : Except ApiError (UserState × Bool) :=
  match db.jobs.find? (fun j => j.id == id) with
  | none => .error .notFound
  | some _ =>
    match db.cache.find? (fun c => c.jobId == id) with
    | some existingCache =>
      .ok
        ( { db with
            cache := db.cache.map fun c =>
              if c.jobId == id then { c with isFavorite := !existingCache.isFavorite } else c },
          !existingCache.isFavorite )
    | none =>
      .ok
        ( { db with
            cache := db.cache ++
              [{ jobId := id, matchScore := 0, matchDetails := none,
                 isFavorite := true, isHidden := false }] },
          true )

/-- `hideJob` (`POST /api/v1/jobs/:id/hide`), for the authenticated user:
404 when the job does not exist; otherwise set the existing cache row's
`isHidden` to `true`, or create a placeholder row with `matchScore: 0` and
`isHidden: true`. -/
def hideJob (db : UserState) (id : ℤ) : Except ApiError UserState :=
  match db.jobs.find? (fun j => j.id == id) with
  | none => .error .notFound
  | some _ =>
    match db.cache.find? (fun c => c.jobId == id) with
    | some _ =>
      .ok
        { db with
          cache := db.cache.map fun c =>
            if c.jobId == id then { c with isHidden := true } else c }
    | none =>
      .ok
        { db with
          cache := db.cache ++
            [{ jobId := id, matchScore := 0, matchDetails := none,
               isFavorite := false, isHidden := true }] }

/-! Concrete states used by the witnesses below. -/

/-- An empty profile (every optional field NULL, every list empty). -/
def emptyProfile : UserProfile := ⟨[], none, none, none, []⟩

/-- A job with empty optional fields. -/
def emptyJob : Job := ⟨"", [], none, none, none, none⟩

/-- A state on which auto-apply succeeds: auto-apply enabled with
threshold 50 and cap 2, five cache rows (one below threshold, one hidden)
and one existing application for job 2. -/
def autoState : UserState where
  preferences := some ⟨true, 50, 2⟩
  jobs := [⟨1, "Frontend Engineer", "Acme", 0⟩, ⟨2, "Backend Engineer", "Acme", 0⟩,
    ⟨3, "Data Engineer", "Acme", 0⟩]
  cache := [⟨1, 90, none, false, false⟩, ⟨2, 70, none, false, false⟩,
    ⟨3, 60, none, false, false⟩, ⟨4, 40, none, false, false⟩, ⟨5, 95, none, false, true⟩]
  applications := [⟨2, .PENDING, none, [], false, -5⟩]

/-- The state after `autoApply autoState 0 10`: one new application for
job 1 and its `applicationCount` incremented. -/
def autoStateAfter : UserState where
  preferences := some ⟨true, 50, 2⟩
  jobs := [⟨1, "Frontend Engineer", "Acme", 1⟩, ⟨2, "Backend Engineer", "Acme", 0⟩,
    ⟨3, "Data Engineer", "Acme", 0⟩]
  cache := [⟨1, 90, none, false, false⟩, ⟨2, 70, none, false, false⟩,
    ⟨3, 60, none, false, false⟩, ⟨4, 40, none, false, false⟩, ⟨5, 95, none, false, true⟩]
  applications := [⟨2, .PENDING, none, [], false, -5⟩, ⟨1, .PENDING, some 90, [], true, 10⟩]

/-- The response of `autoApply autoState 0 10`. -/
def autoResp : AutoApplyResponse where
  applicationsCreated := 1
  jobs := [⟨1, some ⟨1, "Frontend Engineer", "Acme", 0⟩, 90⟩]

/-- A state whose preferences row has `autoApplyEnabled = false` but whose
cache is full of eligible rows. -/
def disabledState : UserState where
  preferences := some ⟨false, 50, 10⟩
  jobs := [⟨1, "Frontend Engineer", "Acme", 0⟩]
  cache := [⟨1, 99, none, false, false⟩]
  applications := []

/-- A state with job 7 present and no cache row for it. -/
def favState : UserState where
  preferences := none
  jobs := [⟨7, "Frontend Engineer", "Acme", 0⟩]
  cache := []
  applications := []

/-- `favState` after one `toggleFavorite`. -/
def favState1 : UserState where
  preferences := none
  jobs := [⟨7, "Frontend Engineer", "Acme", 0⟩]
  cache := [⟨7, 0, none, true, false⟩]
  applications := []

/-- `favState` after two `toggleFavorite`s. -/
def favState2 : UserState where
  preferences := none
  jobs := [⟨7, "Frontend Engineer", "Acme", 0⟩]
  cache := [⟨7, 0, none, false, false⟩]
  applications := []

/-- A scored, favorited cache row for job 7. -/
def hideEntry : CacheEntry := ⟨7, 88, some (.jobj [("skillsMatch", .jnum 90)]), true, false⟩

/-- A state with job 7 present and `hideEntry` cached. -/
def hideState : UserState where
  preferences := none
  jobs := [⟨7, "Frontend Engineer", "Acme", 0⟩]
  cache := [hideEntry]
  applications := []

example : autoApply autoState 0 10 = .ok (autoStateAfter, autoResp) := rfl
example : toggleFavorite favState 7 = .ok (favState1, true) := rfl
example : toggleFavorite favState1 7 = .ok (favState2, false) := rfl
example : hideJob hideState 7 =
    .ok { hideState with cache := [{ hideEntry with isHidden := true }] } := rfl

/-- The profile of the spec's worked example. -/
def exampleProfile : UserProfile :=
  ⟨["JavaScript", "React"], some 4, some 80000, some "Remote", ["Frontend Engineer"]⟩

/-- The job of the spec's worked example, with the location string left as
a parameter. -/
def exampleJob (loc : String) : Job :=
  ⟨"Frontend Engineer", ["React", "TypeScript"], some .MID, some 90000, some loc, some .REMOTE⟩

/-- A profile two of whose skills match the single required skill of
`overlapJob`, so the skills detail is `200`. -/
def overlapProfile : UserProfile :=
  ⟨["Java", "JavaScript"], some 5, some 50000, some "remote", ["Engineer"]⟩

/-- A job with one required skill matched twice by `overlapProfile`. -/
def overlapJob : Job :=
  ⟨"Engineer", ["Java"], some .MID, some 60000, some "remote", some .ONSITE⟩

/-- A profile with zero years of experience recorded. -/
def zeroYearsProfile : UserProfile := ⟨[], some 0, none, none, []⟩

/-- A profile with four years of experience recorded. -/
def fourYearsProfile : UserProfile := ⟨[], some 4, none, none, []⟩

/-- An entry-level job. -/
def entryJob : Job := ⟨"", [], some .ENTRY, none, none, none⟩

/-- A profile with a negative minimum salary. -/
def negSalaryProfile : UserProfile := ⟨[], none, some (-1), none, []⟩

/-- A job with a (more) negative maximum salary. -/
def negSalaryJob : Job := ⟨"", [], none, some (-201), none, none⟩

/-- `hideState` after `hideJob`. -/
def hideStateAfter : UserState := { hideState with cache := [{ hideEntry with isHidden := true }] }


/-! Helper lemmas. -/

/-- `roundDiv` of a non-negative fraction is non-negative. -/
theorem roundDiv_nonneg {n d : ℤ} (hn : 0 ≤ n) (hd : 0 < d) : 0 ≤ roundDiv n d := by
  unfold roundDiv
  rw [if_pos hd]
  exact Int.ediv_nonneg (by omega) (by omega)

/-- `roundDiv` of a fraction bounded by `100` is at most `100`. -/
theorem roundDiv_le_hundred {n d : ℤ} (hd : 0 < d) (h : n ≤ 100 * d) : roundDiv n d ≤ 100 := by
  unfold roundDiv
  rw [if_pos hd]
  have h2 : (2 * n + d) / (2 * d) ≤ (201 * d) / (2 * d) :=
    Int.ediv_le_ediv (by omega) (by omega)
  have h3 : (201 * d) / (2 * d) = 100 := by
    have he : (201 : ℤ) * d = d + 2 * d * 100 := by ring
    rw [he, Int.add_mul_ediv_left _ _ (by omega : (2 : ℤ) * d ≠ 0),
      Int.ediv_eq_zero_of_lt (le_of_lt hd) (by omega)]
    omega
  omega

/-- A list is a prefix of itself (`Bool` version). -/
theorem isPrefixOf_self (l : List Char) : l.isPrefixOf l = true := by
  induction l with
  | nil => rfl
  | cons c t ih => simp [List.isPrefixOf, ih]

/-- Every string includes itself. -/
theorem jsIncludes_self (s : String) : jsIncludes s s = true := by
  unfold jsIncludes
  cases h : s.data with
  | nil => simp [charsIncl]
  | cons c t => simp [charsIncl, isPrefixOf_self]

/-- `find?` by jobId commutes with a pointwise update of the matching
entries, provided the update preserves the jobId. -/
theorem find?_map_update (l : List CacheEntry) (id : ℤ) (f : CacheEntry → CacheEntry)
    (hf : ∀ c, (f c).jobId = c.jobId) :
    (l.map fun c => if c.jobId == id then f c else c).find? (fun c => c.jobId == id) =
      (l.find? fun c => c.jobId == id).map f := by
  induction l with
  | nil => rfl
  | cons c t ih =>
    simp only [List.map_cons, List.find?_cons]
    by_cases hc : (c.jobId == id) = true
    · simp [hc, hf]
    · have hc2 : (c.jobId == id) = false := by simpa using hc
      rw [if_neg hc]
      simp only [hc2]
      exact ih

/-- Bounds for the skills detail, under the proviso that no more profile
skills match than there are required skills. -/
theorem skillsBlock_bounds (p : UserProfile) (j : Job)
    (h : (matchingSkills p j).length ≤ j.skillsRequired.length) :
    0 ≤ (skillsBlock p j).1 ∧ (skillsBlock p j).1 ≤ 100 := by
  unfold skillsBlock
  by_cases hc : (p.skills.isEmpty || j.skillsRequired.isEmpty) = true
  · simp [hc]
  · rw [if_neg hc]
    have hk : 0 < j.skillsRequired.length := by
      rcases hj : j.skillsRequired with _ | _
      · simp [hj] at hc
      · simp [hj]
    refine ⟨roundDiv_nonneg (by positivity) (by exact_mod_cast hk),
      roundDiv_le_hundred (by exact_mod_cast hk) ?_⟩
    omega

/-- Bounds for the experience detail, for profiles whose years column is
not negative. -/
theorem experienceBlock_bounds (p : UserProfile) (j : Job)
    (hy : 0 ≤ p.experienceYears.getD 0) :
    0 ≤ (experienceBlock p j).1 ∧ (experienceBlock p j).1 ≤ 100 := by
  unfold experienceBlock
  cases hp : p.experienceYears with
  | none => simp
  | some y =>
    cases hl : j.experienceLevel with
    | none => simp
    | some lvl =>
      rw [hp, Option.getD_some] at hy
      dsimp only
      by_cases h0 : y = 0
      · simp [h0]
      · rw [if_neg h0]
        by_cases hreq : expMap lvl ≤ y
        · simp [hreq]
        · rw [if_neg hreq]
          have hpos : 0 < expMap lvl := by
        
            cases lvl <;> simp [expMap] at hreq ⊢ <;> omega
          exact ⟨roundDiv_nonneg (by omega) hpos,
            roundDiv_le_hundred hpos (by omega)⟩

/-- Bounds for the salary detail, for non-negative salary columns. -/
theorem salaryBlock_bounds (p : UserProfile) (j : Job)
    (hmin : 0 ≤ p.salaryMin.getD 0) (hmax : 0 ≤ j.salaryMax.getD 0) :
    0 ≤ (salaryBlock p j).1 ∧ (salaryBlock p j).1 ≤ 100 := by
  unfold salaryBlock
  cases hp : p.salaryMin with
  | none => simp
  | some smin =>
    cases hj : j.salaryMax with
    | none => simp
    | some smax =>
      rw [hp, Option.getD_some] at hmin
      rw [hj, Option.getD_some] at hmax
      dsimp only
      by_cases h0 : smin = 0 ∨ smax = 0
      · simp [h0]
      · rw [if_neg h0]
        by_cases hle : smin ≤ smax
        · simp [hle]
        · rw [if_neg hle]
          have hpos : 0 < smin := by omega
          exact ⟨roundDiv_nonneg (by omega) hpos,
            roundDiv_le_hundred hpos (by omega)⟩

/-- Bounds for the location detail (its value is `0`, `80` or `100`). -/
theorem locationBlock_bounds (p : UserProfile) (j : Job) :
    0 ≤ (locationBlock p j).1 ∧ (locationBlock p j).1 ≤ 100 := by
  unfold locationBlock
  cases p.location with
  | none => simp
  | some pl =>
    cases j.location with
    | none => simp
    | some jl =>
      dsimp only
      split_ifs <;> simp

/-- Bounds for the title-bonus detail (its value is `0` or `100`). -/
theorem roleBlock_bounds (p : UserProfile) (j : Job) :
    0 ≤ (roleBlock p j).1 ∧ (roleBlock p j).1 ≤ 100 := by
  unfold roleBlock
  split_ifs <;> simp

/-! Claim theorems. -/

/-- C1, counterexample: on `overlapProfile` / `overlapJob` the fallback's
final score is `140`, outside `[0, 100]` — two profile skills match the
single required skill by substring containment, so the skills detail is
`200` and the weighted sum exceeds `100`. -/
theorem basicScore_exceeds_100 :
    (calculateBasicMatchScore overlapProfile overlapJob).score = 140 ∧
    ¬((calculateBasicMatchScore overlapProfile overlapJob).score ≤ 100) := by decide

/-- C1 (amended): the fallback's final score is an integer (it lives in ℤ
by construction) and lies in `[0, 100]` provided (a) at most as many
profile skills match as there are required skills, (b) the recorded
experience years are not negative, and (c) the salary columns are not
negative.  Without proviso (a) the score can exceed `100`
(`basicScore_exceeds_100`); without (b) or (c) it can be negative. -/
theorem calculateBasicMatchScore_score_in_range (p : UserProfile) (j : Job)
    (hskills : (matchingSkills p j).length ≤ j.skillsRequired.length)
    (hy : 0 ≤ p.experienceYears.getD 0)
    (hmin : 0 ≤ p.salaryMin.getD 0) (hmax : 0 ≤ j.salaryMax.getD 0) :
    0 ≤ (calculateBasicMatchScore p j).score ∧ (calculateBasicMatchScore p j).score ≤ 100 := by
  have h1 := skillsBlock_bounds p j hskills
  have h2 := experienceBlock_bounds p j hy
  have h3 := salaryBlock_bounds p j hmin hmax
  have h4 := locationBlock_bounds p j
  have h5 := roleBlock_bounds p j
  have hs : (calculateBasicMatchScore p j).score =
      roundDiv (4 * (skillsBlock p j).1 + 2 * (experienceBlock p j).1 +
        2 * (salaryBlock p j).1 + (locationBlock p j).1 + (roleBlock p j).1) 10 := rfl
  rw [hs]
  exact ⟨roundDiv_nonneg (by omega) (by omega), roundDiv_le_hundred (by omega) (by omega)⟩

/-- Witness for `calculateBasicMatchScore_score_in_range` at the worked
example. -/
theorem calculateBasicMatchScore_score_in_range_witness :
    0 ≤ (calculateBasicMatchScore exampleProfile (exampleJob "New York")).score ∧
    (calculateBasicMatchScore exampleProfile (exampleJob "New York")).score ≤ 100 :=
  calculateBasicMatchScore_score_in_range exampleProfile (exampleJob "New York")
    (by decide) (by decide) (by decide) (by decide)

/-- C2, counterexample: when the AI call succeeds and returns valid JSON
that is merely missing fields (the empty object), `calculateMatchScore`
does **not** fall back — `Math.round(parsed.score)` is `NaN`, not a thrown
error, so the AI-branch result (score `NaN`, empty reasons, zero details)
is returned instead of the fallback result. -/
theorem aiMissingField_no_fallback :
    (calculateMatchScore (.parsedValue (.jobj [])) emptyProfile emptyJob).score = .nan ∧
    calculateMatchScore (.parsedValue (.jobj [])) emptyProfile emptyJob ≠
      toMatchResult (calculateBasicMatchScore emptyProfile emptyJob) := by
  refine ⟨rfl, fun h => ?_⟩
  have hs := congrArg MatchResult.score h
  exact absurd hs (by decide)

/-- C2 (amended): `calculateMatchScore` returns the deterministic fallback
result whenever the `try` block throws — the external call raising, a
falsy response content, malformed JSON, or a `TypeError` from accessing a
field of a parsed `null`.  (A parsed non-null value that is merely missing
fields does not throw and is returned with defaults instead, see
`aiMissingField_no_fallback`.)  Errors never propagate: the function is
total and every failure is absorbed by the `catch`. -/
theorem calculateMatchScore_fallback_on_error (p : UserProfile) (j : Job) :
    calculateMatchScore .callError p j = toMatchResult (calculateBasicMatchScore p j) ∧
    calculateMatchScore .emptyContent p j = toMatchResult (calculateBasicMatchScore p j) ∧
    calculateMatchScore .jsonError p j = toMatchResult (calculateBasicMatchScore p j) ∧
    calculateMatchScore (.parsedValue .jnull) p j = toMatchResult (calculateBasicMatchScore p j) :=
  ⟨rfl, rfl, rfl, rfl⟩

/-- The skills block reads only the job's required-skills list. -/
theorem skillsBlock_congr (p : UserProfile) (j j2 : Job)
    (h : j.skillsRequired = j2.skillsRequired) : skillsBlock p j = skillsBlock p j2 := by
  unfold skillsBlock matchingSkills
  rw [h]

/-- The experience block reads only the job's experience level. -/
theorem experienceBlock_congr (p : UserProfile) (j j2 : Job)
    (h : j.experienceLevel = j2.experienceLevel) :
    experienceBlock p j = experienceBlock p j2 := by
  unfold experienceBlock
  rw [h]

/-- The salary block reads only the job's maximum salary. -/
theorem salaryBlock_congr (p : UserProfile) (j j2 : Job)
    (h : j.salaryMax = j2.salaryMax) : salaryBlock p j = salaryBlock p j2 := by
  unfold salaryBlock
  rw [h]

/-- The title block reads only the job's title. -/
theorem roleBlock_congr (p : UserProfile) (j j2 : Job)
    (h : j.title = j2.title) : roleBlock p j = roleBlock p j2 := by
  unfold roleBlock
  rw [h]

/-- In the worked example, a job location that neither contains nor is
contained in `"remote"` (case-insensitively) makes the location block take
the remote branch: detail `80`. -/
theorem locationBlock_example (loc : String)
    (h1 : jsIncludes (jlower loc) "remote" = false)
    (h2 : jsIncludes "remote" (jlower loc) = false) :
    locationBlock exampleProfile (exampleJob loc) = (80, ["Remote position available"]) := by
  have hne : ¬(loc = "") := by
    intro he
    rw [he] at h2
    exact absurd h2 (by decide)
  have hlow : jlower "Remote" = "remote" := by decide
  have heq : (jlower "Remote" == jlower loc) = false := by
    rw [hlow]
    refine beq_eq_false_iff_ne.mpr fun he => ?_
    rw [← he] at h1
    exact absurd h1 (by decide)
  show locationBlock exampleProfile (exampleJob loc) = _
  unfold locationBlock exampleProfile exampleJob
  dsimp only
  rw [if_neg (by simp [hne])]
  rw [hlow] at heq
  rw [if_neg (by rw [hlow, heq, h1, h2]; simp)]
  rw [if_pos (by decide)]

/-- C6: the spec's worked example.  With profile skills
`["JavaScript","React"]`, 4 years of experience, minimum salary 80000,
location `"Remote"`, preferred role `"Frontend Engineer"`, and a mid-level
remote job titled `"Frontend Engineer"` requiring `["React","TypeScript"]`
with maximum salary 90000 whose location string does not match `"remote"`
either way, the fallback produces details
skills `50`, experience `100`, salary `100`, location `80`, title `100`
and final score `78`. -/
theorem basicScore_worked_example (loc : String)
    (h1 : jsIncludes (jlower loc) "remote" = false)
    (h2 : jsIncludes "remote" (jlower loc) = false) :
    calculateBasicMatchScore exampleProfile (exampleJob loc) =
      ⟨78,
        ["Matches 1 required skills", "Experience level matches requirements",
          "Salary expectations align", "Remote position available",
          "Job title matches preferred roles"],
        ⟨50, 100, 100, 80, 100⟩⟩ := by
  have hloc := locationBlock_example loc h1 h2
  have hsk : skillsBlock exampleProfile (exampleJob loc) =
      (50, ["Matches 1 required skills"]) :=
    (skillsBlock_congr exampleProfile (exampleJob loc) (exampleJob "New York") rfl).trans
      (by decide)
  have hex : experienceBlock exampleProfile (exampleJob loc) =
      (100, ["Experience level matches requirements"]) :=
    (experienceBlock_congr exampleProfile (exampleJob loc) (exampleJob "New York") rfl).trans
      (by decide)
  have hsal : salaryBlock exampleProfile (exampleJob loc) =
      (100, ["Salary expectations align"]) :=
    (salaryBlock_congr exampleProfile (exampleJob loc) (exampleJob "New York") rfl).trans
      (by decide)
  have hrole : roleBlock exampleProfile (exampleJob loc) =
      (100, ["Job title matches preferred roles"]) :=
    (roleBlock_congr exampleProfile (exampleJob loc) (exampleJob "New York") rfl).trans
      (by decide)
  unfold calculateBasicMatchScore
  rw [hloc, hsk, hex, hsal, hrole]
  decide

/-- Witness for `basicScore_worked_example` at the location `"New York"`. -/
theorem basicScore_worked_example_witness :
    calculateBasicMatchScore exampleProfile (exampleJob "New York") =
      ⟨78,
        ["Matches 1 required skills", "Experience level matches requirements",
          "Salary expectations align", "Remote position available",
          "Job title matches preferred roles"],
        ⟨50, 100, 100, 80, 100⟩⟩ :=
  basicScore_worked_example "New York" (by decide) (by decide)

/-- C7, counterexample: the salary sub-score can never exceed 100 in the
circumstance the claim describes.  Whenever the job's maximum salary
exceeds the profile's minimum, the code is in the `salaryMin <= salaryMax`
branch and the sub-score is exactly `100` (or the block is skipped and it
is `0`); the unclamped ratio branch only runs when the profile minimum
exceeds the job maximum, where the ratio is below one. -/
theorem salary_detail_not_above_100_when_job_pays_more :
    ¬ ∃ (p : UserProfile) (j : Job) (smin smax : ℤ),
      p.salaryMin = some smin ∧ j.salaryMax = some smax ∧ smin < smax ∧
      100 < salaryMatchScore p j := by
  rintro ⟨p, j, smin, smax, hp, hj, hlt, hgt⟩
  unfold salaryMatchScore salaryBlock at hgt
  rw [hp, hj] at hgt
  dsimp only at hgt
  by_cases h0 : smin = 0 ∨ smax = 0
  · rw [if_pos h0] at hgt
    omega
  · rw [if_neg h0, if_pos (by omega)] at hgt
    omega

/-- C7 (amended): the salary sub-score *can* exceed `100`, but only when
both salary columns are negative (then `salaryMin > salaryMax` with a
ratio above one); whenever the columns are non-negative — in particular
whenever the job's maximum exceeds the profile's minimum — it is at most
`100`. -/
theorem salary_detail_unclamped_amended :
    (∃ (p : UserProfile) (j : Job), 100 < salaryMatchScore p j) ∧
    ∀ (p : UserProfile) (j : Job),
      0 ≤ p.salaryMin.getD 0 → 0 ≤ j.salaryMax.getD 0 → salaryMatchScore p j ≤ 100 := by
  constructor
  · exact ⟨negSalaryProfile, negSalaryJob, by decide⟩
  · intro p j hmin hmax
    exact (salaryBlock_bounds p j hmin hmax).2

/-- Witness for `salary_detail_unclamped_amended` on the worked example. -/
theorem salary_detail_unclamped_amended_witness :
    salaryMatchScore exampleProfile (exampleJob "New York") ≤ 100 :=
  salary_detail_unclamped_amended.2 exampleProfile (exampleJob "New York")
    (by decide) (by decide)

/-- C8, counterexample: a profile with `experienceYears = 0` gets
experience sub-score `0` (not `100`) on an entry-level job, because the
guard `profile.experienceYears && job.experienceLevel` is falsy at `0`
and the whole experience block is skipped. -/
theorem entry_experience_zero_years :
    (calculateBasicMatchScore zeroYearsProfile entryJob).details.experienceMatch = 0 ∧
    (calculateBasicMatchScore zeroYearsProfile entryJob).details.experienceMatch ≠ 100 := by
  decide

/-- C8 (amended): on an entry-level job the experience sub-score is `100`
for every profile whose recorded years are at least `1`; with years `0`
(or NULL) the block is skipped and the sub-score is `0`
(`entry_experience_zero_years`). -/
theorem entry_experience_100 (p : UserProfile) (j : Job) (y : ℤ)
    (hy : p.experienceYears = some y) (h1 : 1 ≤ y)
    (hl : j.experienceLevel = some .ENTRY) :
    (calculateBasicMatchScore p j).details.experienceMatch = 100 := by
  have hd : (calculateBasicMatchScore p j).details.experienceMatch =
      (experienceBlock p j).1 := rfl
  rw [hd]
  unfold experienceBlock
  rw [hy, hl]
  dsimp only
  rw [if_neg (by omega), if_pos (by simp [expMap]; omega)]

/-- Witness for `entry_experience_100`: four years on an entry-level
job. -/
theorem entry_experience_100_witness :
    (calculateBasicMatchScore fourYearsProfile entryJob).details.experienceMatch = 100 :=
  entry_experience_100 fourYearsProfile entryJob 4 rfl (by decide) rfl

/-- C5: with a missing preferences row or `autoApplyEnabled = false`,
`autoApply` fails with the `AUTO_APPLY_DISABLED` error regardless of the
cache contents — the guard runs before any query or write, so no
`Application` row is created (the returned state-transition is the error,
which carries no new state). -/
theorem autoApply_disabled_error (db : UserState) (todayStart now : ℤ)
    (h : db.preferences = none ∨
      ∃ prefs, db.preferences = some prefs ∧ prefs.autoApplyEnabled = false) :
    autoApply db todayStart now = .error .autoApplyDisabled := by
  rcases h with h | ⟨prefs, hp, hen⟩
  · simp [autoApply, h]
  · simp [autoApply, hp, hen]

/-- Witness for `autoApply_disabled_error` on a state with a rich cache
but auto-apply switched off. -/
theorem autoApply_disabled_error_witness :
    autoApply disabledState 0 0 = .error .autoApplyDisabled :=
  autoApply_disabled_error disabledState 0 0 (Or.inr ⟨⟨false, 50, 10⟩, rfl, rfl⟩)

/-- Inversion of a successful `autoApply`: the preferences row exists and
is enabled, the daily count is below the cap, the new application rows are
exactly the mapped `jobsToApply` appended to the old table, and the
response count is their number. -/
theorem autoApply_ok_inv (db : UserState) (todayStart now : ℤ) (db2 : UserState)
    (resp : AutoApplyResponse) (h : autoApply db todayStart now = .ok (db2, resp)) :
    ∃ prefs, db.preferences = some prefs ∧ prefs.autoApplyEnabled = true ∧
      (dailyAutoApplyCount db todayStart : ℤ) < prefs.autoApplyMaxPerDay ∧
      db2.applications = db.applications ++
        (autoApplyJobsToApply db prefs todayStart).map (autoApplyApplication now) ∧
      resp.applicationsCreated = (autoApplyJobsToApply db prefs todayStart).length := by
  cases hp : db.preferences with
  | none => rw [autoApply, hp] at h; exact absurd h (by simp)
  | some prefs =>
    rw [autoApply, hp] at h
    dsimp only at h
    by_cases hen : prefs.autoApplyEnabled = false
    · rw [if_pos hen] at h
      exact absurd h (by simp)
    · rw [if_neg hen] at h
      by_cases hcap : prefs.autoApplyMaxPerDay ≤ (dailyAutoApplyCount db todayStart : ℤ)
      · rw [if_pos hcap] at h
        exact absurd h (by simp)
      · rw [if_neg hcap] at h
        have hinj := Except.ok.inj h
        rw [Prod.mk.injEq] at hinj
        obtain ⟨h1, h2⟩ := hinj
        refine ⟨prefs, rfl, by simpa using hen, by omega, ?_, ?_⟩
        · rw [← h1]
        · rw [← h2]
          simp

/-- The applied jobs are a sub-list of the sorted filtered cache query. -/
theorem jobsToApply_sublist (db : UserState) (prefs : UserPreferences) (todayStart : ℤ) :
    (autoApplyJobsToApply db prefs todayStart).Sublist
      (List.insertionSort byScoreDesc
        (db.cache.filter fun m =>
          decide (prefs.autoApplyThreshold ≤ m.matchScore) && !m.isHidden)) := by
  unfold autoApplyJobsToApply autoApplyCandidates
  exact (List.filter_sublist _).trans (List.take_sublist _ _)

/-- If the cache has at most one row per job, so does the applied-jobs
selection. -/
theorem jobsToApply_nodup (db : UserState) (prefs : UserPreferences) (todayStart : ℤ)
    (hcache : (db.cache.map CacheEntry.jobId).Nodup) :
    ((autoApplyJobsToApply db prefs todayStart).map CacheEntry.jobId).Nodup := by
  have hFsub : (db.cache.filter fun m =>
      decide (prefs.autoApplyThreshold ≤ m.matchScore) && !m.isHidden).Sublist db.cache :=
    List.filter_sublist _
  have hF : ((db.cache.filter fun m =>
      decide (prefs.autoApplyThreshold ≤ m.matchScore) && !m.isHidden).map
        CacheEntry.jobId).Nodup :=
    List.Nodup.sublist (hFsub.map _) hcache
  have hperm := List.perm_insertionSort byScoreDesc
    (db.cache.filter fun m =>
      decide (prefs.autoApplyThreshold ≤ m.matchScore) && !m.isHidden)
  have hS := ((hperm.map CacheEntry.jobId).symm).nodup hF
  exact List.Nodup.sublist ((jobsToApply_sublist db prefs todayStart).map _) hS

/-- No selected job has an existing application: any such application
would appear in the exclusion query, putting its jobId into
`appliedJobIds` and filtering the candidate out. -/
theorem jobsToApply_not_applied (db : UserState) (prefs : UserPreferences) (todayStart : ℤ) :
    ∀ m ∈ autoApplyJobsToApply db prefs todayStart,
      ∀ b ∈ db.applications, b.jobId ≠ m.jobId := by
  intro m hm b hb heq
  unfold autoApplyJobsToApply at hm
  rw [List.mem_filter] at hm
  obtain ⟨hmem, hnot⟩ := hm
  rw [Bool.not_eq_true'] at hnot
  have hjid : m.jobId ∈ (autoApplyCandidates db prefs todayStart).map (fun x => x.jobId) :=
    List.mem_map_of_mem _ hmem
  have hpos : ((db.applications.filter fun a =>
      ((autoApplyCandidates db prefs todayStart).map (fun x => x.jobId)).contains
        a.jobId).map (fun x => x.jobId)).contains m.jobId = true := by
    have hbin : m.jobId ∈ (db.applications.filter fun a =>
        ((autoApplyCandidates db prefs todayStart).map (fun x => x.jobId)).contains
          a.jobId).map (fun x => x.jobId) := by
      refine List.mem_map.mpr ⟨b, ?_, heq⟩
      rw [List.mem_filter]
      refine ⟨hb, ?_⟩
      rw [heq]
      simpa using hjid
    simpa using hbin
  exact Bool.noConfusion (hnot ▸ hpos)

/-- C3: a successful sequential `autoApply` never creates an application
for a job that already has one (second conjunct), and — given the
at-most-one-row-per-(user, job) invariants on the applications and the
match cache — the applications table keeps at most one row per job
(first conjunct). -/
theorem autoApply_no_duplicate_application (db : UserState) (todayStart now : ℤ)
    (db2 : UserState) (resp : AutoApplyResponse)
    (h : autoApply db todayStart now = .ok (db2, resp))
    (happs : (db.applications.map Application.jobId).Nodup)
    (hcache : (db.cache.map CacheEntry.jobId).Nodup) :
    (db2.applications.map Application.jobId).Nodup ∧
    ∀ a ∈ db2.applications, a ∈ db.applications ∨
      ∀ b ∈ db.applications, b.jobId ≠ a.jobId := by
  obtain ⟨prefs, hp, _, _, happ_eq, _⟩ := autoApply_ok_inv db todayStart now db2 resp h
  have hproj : ∀ m : CacheEntry, (autoApplyApplication now m).jobId = m.jobId := fun _ => rfl
  have hmapmap : ((autoApplyJobsToApply db prefs todayStart).map
      (autoApplyApplication now)).map Application.jobId =
      (autoApplyJobsToApply db prefs todayStart).map CacheEntry.jobId := by
    rw [List.map_map]
    exact List.map_congr_left fun m _ => hproj m
  constructor
  · rw [happ_eq, List.map_append, List.nodup_append]
    refine ⟨happs, ?_, ?_⟩
    · rw [hmapmap]
      exact jobsToApply_nodup db prefs todayStart hcache
    · intro x hx hx2
      rw [hmapmap] at hx2
      obtain ⟨b, hb, rfl⟩ := List.mem_map.mp hx
      obtain ⟨m, hm, heq⟩ := List.mem_map.mp hx2
      exact jobsToApply_not_applied db prefs todayStart m hm b hb heq.symm
  · intro a ha
    rw [happ_eq, List.mem_append] at ha
    rcases ha with ha | ha
    · exact Or.inl ha
    · obtain ⟨m, hm, rfl⟩ := List.mem_map.mp ha
      refine Or.inr fun b hb => ?_
      rw [hproj]
      exact jobsToApply_not_applied db prefs todayStart m hm b hb

/-- Witness for `autoApply_no_duplicate_application` on `autoState`. -/
theorem autoApply_no_duplicate_application_witness :
    (autoStateAfter.applications.map Application.jobId).Nodup ∧
    ∀ a ∈ autoStateAfter.applications, a ∈ autoState.applications ∨
      ∀ b ∈ autoState.applications, b.jobId ≠ a.jobId :=
  autoApply_no_duplicate_application autoState 0 10 autoStateAfter autoResp rfl
    (by decide) (by decide)

/-- C4: a successful `autoApply` creates at most
`autoApplyMaxPerDay - todayCount` applications (the candidate query is
limited to that many rows), every created application comes from a
threshold-passing, non-hidden cache row, and the candidate query is
ordered by score descending. -/
theorem autoApply_daily_cap (db : UserState) (todayStart now : ℤ) (db2 : UserState)
    (resp : AutoApplyResponse) (prefs : UserPreferences)
    (hp : db.preferences = some prefs)
    (h : autoApply db todayStart now = .ok (db2, resp)) :
    (resp.applicationsCreated : ℤ) ≤
      prefs.autoApplyMaxPerDay - (dailyAutoApplyCount db todayStart : ℤ) ∧
    db2.applications.length = db.applications.length + resp.applicationsCreated ∧
    (∀ a ∈ db2.applications, a ∉ db.applications →
      ∃ m ∈ db.cache, m.jobId = a.jobId ∧ prefs.autoApplyThreshold ≤ m.matchScore ∧
        m.isHidden = false) ∧
    List.Sorted byScoreDesc (autoApplyCandidates db prefs todayStart) := by
  obtain ⟨prefs2, hp2, hen, hlt, happ_eq, hcount⟩ :=
    autoApply_ok_inv db todayStart now db2 resp h
  rw [hp] at hp2
  obtain rfl := Option.some.inj hp2
  refine ⟨?_, ?_, ?_, ?_⟩
  · have hlen1 : (autoApplyJobsToApply db prefs todayStart).length ≤
        (autoApplyCandidates db prefs todayStart).length := by
      unfold autoApplyJobsToApply
      exact List.length_filter_le _ _
    have hlen2 : (autoApplyCandidates db prefs todayStart).length ≤
        (prefs.autoApplyMaxPerDay - (dailyAutoApplyCount db todayStart : ℤ)).toNat := by
      unfold autoApplyCandidates
      rw [List.length_take]
      exact min_le_left _ _
    have htn : ((prefs.autoApplyMaxPerDay -
        (dailyAutoApplyCount db todayStart : ℤ)).toNat : ℤ) =
        prefs.autoApplyMaxPerDay - (dailyAutoApplyCount db todayStart : ℤ) :=
      Int.toNat_of_nonneg (by omega)
    rw [hcount]
    omega
  · rw [happ_eq, List.length_append, hcount, List.length_map]
  · intro a ha hnotold
    rw [happ_eq, List.mem_append] at ha
    rcases ha with ha | ha
    · exact absurd ha hnotold
    · obtain ⟨m, hm, rfl⟩ := List.mem_map.mp ha
      have hm2 := (jobsToApply_sublist db prefs todayStart).subset hm
      have hm3 := (List.perm_insertionSort byScoreDesc _).mem_iff.mp hm2
      rw [List.mem_filter] at hm3
      obtain ⟨hmem, hpred⟩ := hm3
      rw [Bool.and_eq_true] at hpred
      obtain ⟨hthr, hhid⟩ := hpred
      rw [decide_eq_true_eq] at hthr
      rw [Bool.not_eq_true'] at hhid
      exact ⟨m, hmem, rfl, hthr, hhid⟩
  · unfold autoApplyCandidates
    exact List.Pairwise.sublist (List.take_sublist _ _)
      (List.sorted_insertionSort byScoreDesc _)

/-- Witness for `autoApply_daily_cap` on `autoState`. -/
theorem autoApply_daily_cap_witness :
    (autoResp.applicationsCreated : ℤ) ≤
      (⟨true, 50, 2⟩ : UserPreferences).autoApplyMaxPerDay -
        (dailyAutoApplyCount autoState 0 : ℤ) ∧
    autoStateAfter.applications.length =
      autoState.applications.length + autoResp.applicationsCreated ∧
    (∀ a ∈ autoStateAfter.applications, a ∉ autoState.applications →
      ∃ m ∈ autoState.cache, m.jobId = a.jobId ∧
        (⟨true, 50, 2⟩ : UserPreferences).autoApplyThreshold ≤ m.matchScore ∧
        m.isHidden = false) ∧
    List.Sorted byScoreDesc (autoApplyCandidates autoState ⟨true, 50, 2⟩ 0) :=
  autoApply_daily_cap autoState 0 10 autoStateAfter autoResp ⟨true, 50, 2⟩ rfl rfl

/-- C9: starting from a user/job pair with no cache row, toggling favorite
twice first creates a zero-score placeholder with `isFavorite = true` and
then flips the flag back, leaving a cache row with `isFavorite = false` and
`matchScore` still `0`. -/
theorem toggleFavorite_twice_unscored (db : UserState) (id : ℤ)
    (hjob : (db.jobs.find? fun j => j.id == id).isSome = true)
    (hnone : db.cache.find? (fun c => c.jobId == id) = none) :
    ∀ db1 b1 db2 b2, toggleFavorite db id = .ok (db1, b1) →
      toggleFavorite db1 id = .ok (db2, b2) →
      b1 = true ∧ b2 = false ∧
      db2.cache.find? (fun c => c.jobId == id) =
        some ⟨id, 0, none, false, false⟩ := by
  intro db1 b1 db2 b2 h1 h2
  obtain ⟨jr, hjr⟩ := Option.isSome_iff_exists.mp hjob
  rw [toggleFavorite, hjr, hnone] at h1
  have h1b := Except.ok.inj h1
  rw [Prod.mk.injEq] at h1b
  obtain ⟨hdb1, hb1⟩ := h1b
  subst hdb1
  rw [toggleFavorite] at h2
  dsimp only at h2
  rw [hjr] at h2
  have hfind : (db.cache ++
      [({ jobId := id, matchScore := 0, matchDetails := none,
          isFavorite := true, isHidden := false } : CacheEntry)]).find?
        (fun c => c.jobId == id) =
      some ⟨id, 0, none, true, false⟩ := by
    rw [List.find?_append, hnone]
    simp [List.find?]
  rw [hfind] at h2
  dsimp only at h2
  have h2b := Except.ok.inj h2
  rw [Prod.mk.injEq] at h2b
  obtain ⟨hdb2, hb2⟩ := h2b
  subst hdb2
  refine ⟨hb1.symm, hb2.symm, ?_⟩
  rw [find?_map_update _ id
    (fun c => { c with isFavorite := !(⟨id, 0, none, true, false⟩ : CacheEntry).isFavorite })
    (fun _ => rfl)]
  rw [hfind]
  rfl

/-- Witness for `toggleFavorite_twice_unscored` on `favState`. -/
theorem toggleFavorite_twice_unscored_witness :
    true = true ∧ false = false ∧
    favState2.cache.find? (fun c => c.jobId == 7) = some ⟨7, 0, none, false, false⟩ :=
  toggleFavorite_twice_unscored favState 7 (by decide) rfl favState1 true favState2 false
    rfl rfl

/-- C10: on a state that already has a cache row `c` for the job, `hideJob`
replaces it by `c` with `isHidden := true` — `matchScore`, `isFavorite` and
`matchDetails` unchanged — leaves every other row untouched, creates no
row, and a second `hideJob` is the identity on the resulting state. -/
theorem hideJob_only_sets_isHidden (db : UserState) (id : ℤ) (c : CacheEntry)
    (hjob : (db.jobs.find? fun j => j.id == id).isSome = true)
    (hfound : db.cache.find? (fun e => e.jobId == id) = some c) :
    ∀ db2, hideJob db id = .ok db2 →
      db2.cache.find? (fun e => e.jobId == id) = some { c with isHidden := true } ∧
      (∀ e ∈ db.cache, (e.jobId == id) = false → e ∈ db2.cache) ∧
      db2.cache.length = db.cache.length ∧
      hideJob db2 id = .ok db2 := by
  intro db2 h
  obtain ⟨jr, hjr⟩ := Option.isSome_iff_exists.mp hjob
  rw [hideJob, hjr, hfound] at h
  dsimp only at h
  have hdb2 := Except.ok.inj h
  subst hdb2
  have hfind2 : (db.cache.map fun e =>
      if e.jobId == id then { e with isHidden := true } else e).find?
        (fun e => e.jobId == id) = some { c with isHidden := true } := by
    rw [find?_map_update _ id (fun e => { e with isHidden := true }) (fun _ => rfl), hfound]
    rfl
  refine ⟨hfind2, ?_, by rw [List.length_map], ?_⟩
  · intro e he hne
    refine List.mem_map.mpr ⟨e, he, ?_⟩
    rw [hne]
    rfl
  · rw [hideJob]
    dsimp only
    rw [hjr, hfind2]
    have hgg : (db.cache.map fun e =>
        if e.jobId == id then { e with isHidden := true } else e).map
          (fun e => if e.jobId == id then { e with isHidden := true } else e) =
        db.cache.map fun e => if e.jobId == id then { e with isHidden := true } else e := by
      rw [List.map_map]
      refine List.map_congr_left fun e _ => ?_
      dsimp only [Function.comp]
      by_cases he : (e.jobId == id) = true
      · rw [if_pos he]
        have he2 : ((({ e with isHidden := true } : CacheEntry)).jobId == id) = true := he
        rw [if_pos he2]
      · rw [if_neg he, if_neg he]
    dsimp only
    rw [hgg]

/-- Witness for `hideJob_only_sets_isHidden` on `hideState`. -/
theorem hideJob_only_sets_isHidden_witness :
    hideStateAfter.cache.find? (fun e => e.jobId == 7) =
      some { hideEntry with isHidden := true } ∧
    (∀ e ∈ hideState.cache, (e.jobId == 7) = false → e ∈ hideStateAfter.cache) ∧
    hideStateAfter.cache.length = hideState.cache.length ∧
    hideJob hideStateAfter 7 = .ok hideStateAfter :=
  hideJob_only_sets_isHidden hideState 7 hideEntry (by decide) rfl hideStateAfter rfl
